import Mathlib

/-!
# Verification of the `react-scrollable-feed` virtualized feed component

Shallow embedding of `src/src/index.tsx` (Variant B, with `onSnapBroken`) and
`src/unnamed/part_000` (Variant A, with `onScroll`).  Both variants share the
window computation in `render`, `isViewable`, `scrollToBottom`, `jumpToBottom`,
`componentDidMount` and `componentDidUpdate` verbatim; they differ only in the
scroll/wheel handlers, which are embedded separately below.

Pixel quantities (heights, offsets, rectangle coordinates) are modelled as
rationals, `Math.floor` as `Int.floor`, item counts as naturals, and item
indices as integers.  Side effects (calls to `animateScroll`,
`onScrollComplete`, `onSnapBroken`, `onScroll`) are modelled as an emitted
command list; the mutable instance fields `forceScroll`, `startIndexOverride`
and `endIndexOverride` form the explicit `FeedState`.  `animateScroll` and the
callbacks are taken to be present (they have defaults in `defaultProps`).
`forceUpdate` is modelled as the host performing the next `render` with the
state returned by the operation (React batches the update issued from an event
handler until the handler returns).
-/

namespace ScrollableFeed

/-- `const buffer = 3;` (line 4 of both variants). -/
def buffer : ℤ := 3

/-- The inclusive index range materialized by `render`'s item loop. -/
structure WindowRange where
  startIndex : ℤ
  endIndex : ℤ
deriving DecidableEq, Repr

/-- Number of items pushed by the loop `for (let i = startIndex; i <= endIndex; i++)`:
zero exactly when `endIndex < startIndex`. -/
def renderedItemCount (w : WindowRange) : ℕ := (w.endIndex + 1 - w.startIndex).toNat

/-- The props the embedded operations read: `itemHeight`, `marginTop`, and the
item collection's length `children[1].length` (written `numItems`). -/
structure Props where
  itemHeight : ℚ
  marginTop : ℚ
  numItems : ℕ
deriving DecidableEq, Repr

/-- The mutable instance fields of the component that survive across renders:
`forceScroll` (the anchor state, `true` = Following), `startIndexOverride` and
`endIndexOverride` (the pending one-shot overrides). -/
structure FeedState where
  forceScroll : Bool
  startIndexOverride : ℤ
  endIndexOverride : ℤ
deriving DecidableEq, Repr

/-- Constructor state: `forceScroll = true`, both overrides `0`. -/
def initState : FeedState := ⟨true, 0, 0⟩

/-- Which element a scroll command targets. -/
inductive Target where
  | wrapper
  | upperParent
deriving DecidableEq, Repr

/-- Observable side effects: `animateScroll(target, offset)` plus the
`onScrollComplete`, `onSnapBroken` and `onScroll(isAtBottom)` callbacks. -/
inductive Cmd where
  | animate (target : Target) (offset : ℚ)
  | scrollComplete
  | snapBroken
  | onScroll (isAtBottom : Bool)
deriving DecidableEq, Repr

/-- The offsets (with targets) of the `animateScroll` commands in a trace. -/
def animateCmds : List Cmd → List (Target × ℚ)
  | [] => []
  | Cmd.animate t o :: rest => (t, o) :: animateCmds rest
  | _ :: rest => animateCmds rest

/-- Geometry of `wrapperRef.current.parentElement.getBoundingClientRect()`. -/
structure UpperRect where
  height : ℚ
  top : ℚ
deriving DecidableEq, Repr

/-- The host geometry an operation can observe: whether `wrapperRef.current`
is attached, the upper parent's rectangle when `parentElement` exists, and
`topRef.current.getBoundingClientRect().top` when the top sentinel exists. -/
structure Geometry where
  wrapperAttached : Bool
  upperParent : Option UpperRect
  topRectTop : Option ℚ
deriving DecidableEq, Repr

/-- `windowHeight` and `windowTop` as initialized at the start of `render`:
`0` unless the wrapper is attached and has a parent element. -/
def windowRect (g : Geometry) : ℚ × ℚ :=
  if g.wrapperAttached then
    match g.upperParent with
    | some r => (r.height, r.top)
    | none => (0, 0)
  else (0, 0)

/-- The `top` variable of `render`: `windowTop - topRect.top` when
`topRect.top < windowTop`, else `0`. -/
def renderTop (g : Geometry) : ℚ :=
  let windowTop := (windowRect g).2
  match g.topRectTop with
  | some t => if t < windowTop then windowTop - t else 0
  | none => 0

/-- The window computation of `render` (lines 260-286 of `src/src/index.tsx`,
identically lines 236-262 of `src/unnamed/part_000`), transcribed statement by
statement.  Returns the materialized range together with the override fields
after the computation (an override `> 0` is applied and reset to `0`; any
other override value is left untouched and unused). -/
def computeRange (itemHeight marginTop : ℚ) (numItems : ℕ) (top windowHeight : ℚ)
    (startIndexOverride endIndexOverride : ℤ) : WindowRange × ℤ × ℤ :=
  let actualHeight := itemHeight + marginTop
  let startIndex0 : ℤ := ⌊top / actualHeight⌋
  let endIndex0 : ℤ := min ((numItems : ℤ) - 1) ⌊(top + windowHeight) / actualHeight⌋
  let startIndex1 := startIndex0 - buffer
  let endIndex1 := endIndex0 + buffer
  let startIndex2 := if startIndex1 < 0 then 0 else startIndex1
  let startIndex3 := if startIndexOverride > 0 then startIndexOverride else startIndex2
  let so := if startIndexOverride > 0 then 0 else startIndexOverride
  let endIndex2 := if endIndexOverride > 0 then endIndexOverride else endIndex1
  let eo := if endIndexOverride > 0 then 0 else endIndexOverride
  let endIndex3 := if endIndex2 > (numItems : ℤ) - 1 then (numItems : ℤ) - 1 else endIndex2
  (⟨startIndex3, endIndex3⟩, so, eo)

/-- What one `render` pass produces: the materialized window, the instance
state afterwards, and the side effects it emitted. -/
structure RenderOut where
  window : WindowRange
  state : FeedState
  cmds : List Cmd
deriving DecidableEq, Repr

/-- `render` (lines 225-319): reads the geometry, unconditionally issues
`animateScroll(upperParent, (children.length + buffer) * itemHeight)` followed
by `onScrollComplete()` whenever the wrapper and its parent are attached, then
performs the window computation, consuming any positive pending override. -/
def render (p : Props) (s : FeedState) (g : Geometry) : RenderOut :=
  let windowHeight := (windowRect g).1
  let parentCmds : List Cmd :=
    if g.wrapperAttached then
      match g.upperParent with
      | some _ =>
          [Cmd.animate Target.upperParent (((p.numItems : ℚ) + (buffer : ℚ)) * p.itemHeight),
           Cmd.scrollComplete]
      | none => []
    else []
  let top := renderTop g
  let out := computeRange p.itemHeight p.marginTop p.numItems top windowHeight
    s.startIndexOverride s.endIndexOverride
  { window := out.1
    state := { s with startIndexOverride := out.2.1, endIndexOverride := out.2.2 }
    cmds := parentCmds }

/-- The range `render` computes when no override is pending. -/
def baseRange (p : Props) (g : Geometry) : WindowRange := (render p initState g).window

/-- Commands emitted by `scrollToBottom` (lines 170-180):
`animateScroll(wrapper, (children.length + buffer) * itemHeight)` and
`onScrollComplete()`, guarded by `wrapperRef.current`. -/
def scrollToBottomCmds (p : Props) (g : Geometry) : List Cmd :=
  if g.wrapperAttached then
    [Cmd.animate Target.wrapper (((p.numItems : ℚ) + (buffer : ℚ)) * p.itemHeight),
     Cmd.scrollComplete]
  else []

/-- `scrollToBottom` mutates no instance field; it only emits commands. -/
def scrollToBottom (p : Props) (s : FeedState) (g : Geometry) : FeedState × List Cmd :=
  (s, scrollToBottomCmds p g)

/-- `scrollToIndex` (lines 185-201, Variant B only): guarded by the wrapper
and its parent; scrolls the wrapper to
`(startIndex + floor(windowHeight / actualHeight) + 2 * buffer) * itemHeight`. -/
def scrollToIndex (p : Props) (s : FeedState) (g : Geometry) (startIndex : ℤ) :
    FeedState × List Cmd :=
  if g.wrapperAttached then
    match g.upperParent with
    | some r =>
        let actualHeight := p.itemHeight + p.marginTop
        (s, [Cmd.animate Target.wrapper
              (((startIndex + ⌊r.height / actualHeight⌋ + 2 * buffer : ℤ) : ℚ) * p.itemHeight),
            Cmd.scrollComplete])
    | none => (s, [])
  else (s, [])

/-- `jumpToBottom` (lines 206-223): guarded by the wrapper and its parent;
sets `startIndexOverride = children.length - floor(windowHeight / actualHeight)
- buffer` and `endIndexOverride = children.length - 1`, requests a re-render,
sets `forceScroll = true` and calls `scrollToBottom`. -/
def jumpToBottom (p : Props) (s : FeedState) (g : Geometry) : FeedState × List Cmd :=
  if g.wrapperAttached then
    match g.upperParent with
    | some r =>
        let actualHeight := p.itemHeight + p.marginTop
        let so := (p.numItems : ℤ) - ⌊r.height / actualHeight⌋ - buffer
        let eo := (p.numItems : ℤ) - 1
        (⟨true, so, eo⟩, scrollToBottomCmds p g)
    | none => (s, [])
  else (s, [])

/-- Variant B `handleMouseWheel` (lines 142-146): detach and fire
`onSnapBroken`. -/
def handleMouseWheelB (s : FeedState) : FeedState × List Cmd :=
  ({ s with forceScroll := false }, [Cmd.snapBroken])

/-- Variant A `handleScroll` (`src/unnamed/part_000` lines 157-162): when
`forceScroll` is `false` it fires `onScroll(true)`; it never mutates state. -/
def handleScrollA (s : FeedState) : FeedState × List Cmd :=
  if s.forceScroll then (s, []) else (s, [Cmd.onScroll true])

/-- `componentDidMount` (lines 71-73): one `scrollToBottom`. -/
def componentDidMount (p : Props) (s : FeedState) (g : Geometry) : FeedState × List Cmd :=
  scrollToBottom p s g

/-- `componentDidUpdate` (lines 65-69): `scrollToBottom` iff `forceScroll`. -/
def componentDidUpdate (p : Props) (s : FeedState) (g : Geometry) : FeedState × List Cmd :=
  if s.forceScroll then scrollToBottom p s g else (s, [])

/-- One update cycle as dispatched by the host: `render` followed by
`componentDidUpdate`, with the concatenated command trace.
(`getSnapshotBeforeUpdate` is pure and its result is ignored by
`componentDidUpdate`, so it contributes nothing.) -/
def updateCycle (p : Props) (s : FeedState) (g : Geometry) :
    WindowRange × FeedState × List Cmd :=
  let r := render p s g
  let d := componentDidUpdate p r.state g
  (r.window, d.1, r.cmds ++ d.2)

/-- `isViewable` (lines 104-117), on the geometry it reads:
`parentRect.top`, `parent.clientHeight`, `childRect.top` and `epsilon`.
`epsilon = epsilon || 0` collapses only a falsy (zero) epsilon to `0`. -/
def isViewable (parentTop parentClientHeight childTop epsilon : ℚ) : Bool :=
  let eps := if epsilon = 0 then (0 : ℚ) else epsilon
  let childTopIsViewable := decide (childTop ≥ parentTop)
  let childOffsetToParentBottom := parentTop + parentClientHeight - childTop
  let childBottomIsViewable := decide (childOffsetToParentBottom + eps ≥ 0)
  childTopIsViewable && childBottomIsViewable

/-- The state reached by the event sequence `mount → wheel` (Variant B),
starting from the constructor state. -/
def wheelScenarioState (p : Props) (g : Geometry) : FeedState :=
  (handleMouseWheelB (componentDidMount p initState g).1).1

/-! ## Helper lemmas -/

/-- The `top` variable computed by `render` is never negative. -/
theorem renderTop_nonneg (g : Geometry) : 0 ≤ renderTop g := by
  unfold renderTop
  cases g.topRectTop with
  | none => simp
  | some t =>
      simp only
      split_ifs with h
      · linarith
      · exact le_refl 0

/-! ## Claim theorems -/

/-- C5 (counterexample): at `itemHeight=20, marginTop=0, viewportHeight=100,
itemCount=50, scrollTop=400` with no pending override, the window computation
does NOT return the claimed padded range `[17, 27]`: the code computes
`endIndex = min(49, floor((400+100)/20)) + 3 = 25 + 3 = 28`. -/
theorem scenario_range_cex :
    (computeRange 20 0 50 400 100 0 0).1 ≠ ⟨17, 27⟩ := by
  norm_num [computeRange, buffer, WindowRange.mk.injEq]

/-- C5 (amended): with `itemHeight=20, marginTop=0, buffer=3,
viewportHeight=100, itemCount=50, scrollTop=400`, the window computation
returns exactly the padded range `startIndex=17, endIndex=28` (the base end
row is `floor((400+100)/20) = 25`, which the buffer pads to 28). -/
theorem scenario_range_eval :
    (computeRange 20 0 50 400 100 0 0).1 = ⟨17, 28⟩ := by
  norm_num [computeRange, buffer]

/-- C8 (code evaluation at the failing input): Variant A's `handleScroll`
performs no state transition at all, and fires `onScroll(true)` exactly when
`forceScroll` is already `false` (i.e. when the anchor is Detached); it never
fires `onScroll(false)` and never re-enters Following.  This contradicts the
claimed recompute-and-transition semantics and the callback's documented
`isAtBottom` meaning. -/
theorem handleScrollA_eval :
    handleScrollA ⟨false, 0, 0⟩ = (⟨false, 0, 0⟩, [Cmd.onScroll true]) ∧
    handleScrollA ⟨true, 0, 0⟩ = (⟨true, 0, 0⟩, []) := by
  decide

/-- C9 (counterexample): `isViewable` does NOT treat a negative epsilon as 0:
`epsilon || 0` only collapses a falsy (zero) epsilon, so at
`parentTop=0, clientHeight=100, childTop=100` epsilon `-2` yields `false`
while epsilon `0` yields `true`. -/
theorem isViewable_neg_epsilon_cex :
    isViewable 0 100 100 (-2) = false ∧ isViewable 0 100 100 0 = true := by
  norm_num [isViewable]

/-- C9 (amended): a negative caller-supplied epsilon is used as-is, not
clamped to 0; since it only shrinks the tolerance, a geometry viewable under
a non-positive epsilon is still viewable under epsilon 0 (but not conversely,
see the counterexample). -/
theorem isViewable_neg_epsilon_narrows (pt ph ct e : ℚ) (he : e ≤ 0)
    (h : isViewable pt ph ct e = true) : isViewable pt ph ct 0 = true := by
  simp only [isViewable, Bool.and_eq_true, decide_eq_true_eq] at h ⊢
  refine ⟨h.1, ?_⟩
  have h2 := h.2
  split_ifs at h2 ⊢ <;> linarith

/-- Witness for `isViewable_neg_epsilon_narrows` at
`parentTop=0, clientHeight=100, childTop=50, epsilon=-2`. -/
theorem isViewable_neg_epsilon_narrows_witness :
    isViewable 0 100 50 (-2) = true ∧ isViewable 0 100 50 0 = true := by
  have hpre : isViewable 0 100 50 (-2) = true := by norm_num [isViewable]
  exact ⟨hpre, isViewable_neg_epsilon_narrows 0 100 50 (-2) (by norm_num) hpre⟩

/-- C10: when `wrapperRef.current` is absent, `scrollToBottom`, `jumpToBottom`
and `scrollToIndex` are no-ops: no command is issued, no callback is invoked,
and the state (anchor flag and both pending overrides) is unchanged. -/
theorem unattached_noops (p : Props) (s : FeedState) (g : Geometry) (i : ℤ)
    (hg : g.wrapperAttached = false) :
    scrollToBottom p s g = (s, []) ∧ jumpToBottom p s g = (s, []) ∧
    scrollToIndex p s g i = (s, []) := by
  simp [scrollToBottom, scrollToBottomCmds, jumpToBottom, scrollToIndex, hg]

/-- Witness for `unattached_noops` with concrete props and a detached
geometry. -/
theorem unattached_noops_witness :
    (⟨false, none, none⟩ : Geometry).wrapperAttached = false ∧
    (scrollToBottom ⟨20, 0, 5⟩ initState ⟨false, none, none⟩ = (initState, []) ∧
     jumpToBottom ⟨20, 0, 5⟩ initState ⟨false, none, none⟩ = (initState, []) ∧
     scrollToIndex ⟨20, 0, 5⟩ initState ⟨false, none, none⟩ 2 = (initState, [])) :=
  ⟨rfl, unattached_noops ⟨20, 0, 5⟩ initState ⟨false, none, none⟩ 2 rfl⟩

/-- C6 (counterexample): `scrollToBottom` does not force the anchor to
Following (it never touches `forceScroll`), and its scroll offset is
`(itemCount + buffer) * itemHeight`, not the full content height
`(itemHeight + marginTop) * itemCount`: with `itemHeight=20, marginTop=5,
itemCount=10` the command offset is `260` while the content height is `250`. -/
theorem scrollToBottom_single_command_cex :
    (scrollToBottom ⟨20, 5, 10⟩ ⟨false, 0, 0⟩ ⟨true, some ⟨100, 0⟩, some 0⟩).1.forceScroll
        = false ∧
    animateCmds (scrollToBottom ⟨20, 5, 10⟩ ⟨false, 0, 0⟩ ⟨true, some ⟨100, 0⟩, some 0⟩).2
        = [(Target.wrapper, 260)] ∧
    ((20 : ℚ) + 5) * 10 ≠ 260 := by
  norm_num [scrollToBottom, scrollToBottomCmds, animateCmds, buffer]

/-- C6 (amended): with an attached container, `scrollToBottom` leaves the
state (in particular the anchor flag) unchanged and issues exactly one scroll
command, targeting the wrapper, whose offset is
`(itemCount + buffer) * itemHeight` — `marginTop` is not included, so this is
not the content height `(itemHeight + marginTop) * itemCount` in general. -/
theorem scrollToBottom_single_command (p : Props) (s : FeedState) (g : Geometry)
    (hg : g.wrapperAttached = true) :
    (scrollToBottom p s g).1 = s ∧
    animateCmds (scrollToBottom p s g).2
      = [(Target.wrapper, ((p.numItems : ℚ) + (buffer : ℚ)) * p.itemHeight)] := by
  simp [scrollToBottom, scrollToBottomCmds, hg, animateCmds]

/-- Witness for `scrollToBottom_single_command` with `itemHeight=20,
marginTop=5, itemCount=10`. -/
theorem scrollToBottom_single_command_witness :
    (⟨true, some ⟨100, 0⟩, some 0⟩ : Geometry).wrapperAttached = true ∧
    ((scrollToBottom ⟨20, 5, 10⟩ initState ⟨true, some ⟨100, 0⟩, some 0⟩).1 = initState ∧
     animateCmds (scrollToBottom ⟨20, 5, 10⟩ initState ⟨true, some ⟨100, 0⟩, some 0⟩).2
        = [(Target.wrapper, 260)]) := by
  have h := scrollToBottom_single_command ⟨20, 5, 10⟩ initState
    ⟨true, some ⟨100, 0⟩, some 0⟩ rfl
  refine ⟨rfl, h.1, ?_⟩
  rw [h.2]
  norm_num [buffer]

/-- C1 (counterexample): with `itemCount = 1`, stride `20`, viewport height
`0` and scroll offset `100` (all within the claim's stated domain), the
window computation materializes no items even though `itemCount ≠ 0`:
it returns `startIndex = 2 > endIndex = 0`. -/
theorem computeRange_window_wellFormed_cex :
    (computeRange 20 0 1 100 0 0 0).1.endIndex
        < (computeRange 20 0 1 100 0 0 0).1.startIndex ∧
    renderedItemCount (computeRange 20 0 1 100 0 0 0).1 = 0 ∧ (1 : ℕ) ≠ 0 := by
  norm_num [computeRange, renderedItemCount, buffer]

/-- C1 (amended): for every `itemCount ≥ 0`, scroll offset `≥ 0`, viewport
height `≥ 0` and positive stride, provided additionally
`floor(offset / stride) ≤ itemCount + 2` — which holds for every offset within
the total content height `stride * itemCount` — the window computation with no
pending override returns an empty result exactly when `itemCount = 0`, and
otherwise a range with `0 ≤ startIndex ≤ endIndex ≤ itemCount - 1`.  (For
offsets scrolled further past the end the result is empty despite
`itemCount > 0`, see the counterexample.) -/
theorem computeRange_window_wellFormed (itemHeight marginTop : ℚ) (numItems : ℕ)
    (top windowHeight : ℚ)
    (hstride : 0 < itemHeight + marginTop) (htop : 0 ≤ top) (hwin : 0 ≤ windowHeight)
    (hbound : ⌊top / (itemHeight + marginTop)⌋ ≤ (numItems : ℤ) + 2) :
    (renderedItemCount (computeRange itemHeight marginTop numItems top windowHeight 0 0).1 = 0
        ↔ numItems = 0) ∧
    (1 ≤ numItems →
      0 ≤ (computeRange itemHeight marginTop numItems top windowHeight 0 0).1.startIndex ∧
      (computeRange itemHeight marginTop numItems top windowHeight 0 0).1.startIndex
          ≤ (computeRange itemHeight marginTop numItems top windowHeight 0 0).1.endIndex ∧
      (computeRange itemHeight marginTop numItems top windowHeight 0 0).1.endIndex
          ≤ (numItems : ℤ) - 1) := by
  have h0 : (0 : ℤ) ≤ ⌊top / (itemHeight + marginTop)⌋ :=
    Int.floor_nonneg.mpr (div_nonneg htop hstride.le)
  have h1 : ⌊top / (itemHeight + marginTop)⌋
      ≤ ⌊(top + windowHeight) / (itemHeight + marginTop)⌋ := by
    apply Int.floor_le_floor
    gcongr
    linarith
  simp only [computeRange, renderedItemCount, buffer]
  split_ifs <;> omega

/-- Witness for `computeRange_window_wellFormed` at
`itemHeight=20, marginTop=0, itemCount=50, offset=400, viewport=100`. -/
theorem computeRange_window_wellFormed_witness :
    (renderedItemCount (computeRange 20 0 50 400 100 0 0).1 = 0 ↔ (50 : ℕ) = 0) ∧
    (0 ≤ (computeRange 20 0 50 400 100 0 0).1.startIndex ∧
     (computeRange 20 0 50 400 100 0 0).1.startIndex
        ≤ (computeRange 20 0 50 400 100 0 0).1.endIndex ∧
     (computeRange 20 0 50 400 100 0 0).1.endIndex ≤ (50 : ℤ) - 1) := by
  have h := computeRange_window_wellFormed 20 0 50 400 100
    (by norm_num) (by norm_num) (by norm_num) (by norm_num)
  exact ⟨h.1, h.2 (by norm_num)⟩

/-- The window `render` produces is exactly `computeRange` applied to the
geometry-derived `top` and `windowHeight` and the state's overrides. -/
theorem render_window_eq (p : Props) (s : FeedState) (g : Geometry) :
    (render p s g).window
      = (computeRange p.itemHeight p.marginTop p.numItems (renderTop g) (windowRect g).1
          s.startIndexOverride s.endIndexOverride).1 := rfl

/-- After any render, both override fields are non-positive: a positive
override is consumed and reset to `0`, a non-positive one is kept as is. -/
theorem renderState_overrides_nonpos (p : Props) (s : FeedState) (g : Geometry) :
    (render p s g).state.startIndexOverride ≤ 0 ∧
    (render p s g).state.endIndexOverride ≤ 0 := by
  simp only [render, computeRange]
  constructor <;> split_ifs <;> omega

/-- Non-positive overrides do not change the computed window. -/
theorem computeRange_window_nonpos (ih mt : ℚ) (n : ℕ) (top wh : ℚ) (so eo : ℤ)
    (hso : so ≤ 0) (heo : eo ≤ 0) :
    (computeRange ih mt n top wh so eo).1 = (computeRange ih mt n top wh 0 0).1 := by
  simp only [computeRange]
  split_ifs <;> first | rfl | omega

/-- C2: a pending override affects at most one window computation.  Whatever
the overrides before cycle N, the window computed on cycle N+1 (with no new
jump request in between) equals the base computed range for the cycle-N+1
geometry: a positive override applied on cycle N is cleared by it, and a
non-positive leftover is never applied. -/
theorem pendingOverride_one_shot (p : Props) (s : FeedState) (g1 g2 : Geometry) :
    (render p (render p s g1).state g2).window = baseRange p g2 := by
  obtain ⟨hso, heo⟩ := renderState_overrides_nonpos p s g1
  rw [baseRange, render_window_eq, render_window_eq]
  rw [computeRange_window_nonpos _ _ _ _ _ _ _ hso heo]
  rfl

/-- C4: an override is consumed only when strictly positive.  A non-positive
`startIndexOverride` (resp. `endIndexOverride`) leaves the corresponding
computed index equal to the base computed index and is itself left unchanged
by the render (in particular a negative override persists across renders, and
`jumpToBottom` on a one-item list sets `endIndexOverride = 0`, which never
overrides the end bound). -/
theorem override_nonpositive_ignored (ih mt : ℚ) (n : ℕ) (top wh : ℚ) (so eo : ℤ) :
    (so ≤ 0 →
      (computeRange ih mt n top wh so eo).1.startIndex
        = (computeRange ih mt n top wh 0 0).1.startIndex ∧
      (computeRange ih mt n top wh so eo).2.1 = so) ∧
    (eo ≤ 0 →
      (computeRange ih mt n top wh so eo).1.endIndex
        = (computeRange ih mt n top wh 0 0).1.endIndex ∧
      (computeRange ih mt n top wh so eo).2.2 = eo) := by
  simp only [computeRange]
  constructor <;> intro h <;> constructor <;> (split_ifs <;> first | rfl | omega)

/-- Witness for `override_nonpositive_ignored` with `startIndexOverride = -2`
and `endIndexOverride = -1`. -/
theorem override_nonpositive_ignored_witness :
    ((computeRange 20 0 5 0 100 (-2) (-1)).1.startIndex
        = (computeRange 20 0 5 0 100 0 0).1.startIndex ∧
     (computeRange 20 0 5 0 100 (-2) (-1)).2.1 = -2) ∧
    ((computeRange 20 0 5 0 100 (-2) (-1)).1.endIndex
        = (computeRange 20 0 5 0 100 0 0).1.endIndex ∧
     (computeRange 20 0 5 0 100 (-2) (-1)).2.2 = -1) := by
  have h := override_nonpositive_ignored 20 0 5 0 100 (-2) (-1)
  exact ⟨h.1 (by norm_num), h.2 (by norm_num)⟩

/-- C3 (counterexample): `jumpToBottom` with `itemCount = 5`, stride `20`,
attached container of height `100` and current scroll offset `400`
(`topRect.top = -400`) sets `startIndexOverride = 5 - 5 - 3 = -3 ≤ 0`, so the
next render ignores it and uses the base start `floor(400/20) - 3 = 17`, not
the claimed `max(0, 5 - 5 - 3) = 0`; the end is `4`. -/
theorem jumpToBottom_next_window_cex :
    (render ⟨20, 0, 5⟩ (jumpToBottom ⟨20, 0, 5⟩ initState
        ⟨true, some ⟨100, 0⟩, some (-400)⟩).1 ⟨true, some ⟨100, 0⟩, some (-400)⟩).window
      = ⟨17, 4⟩ ∧ (17 : ℤ) ≠ max 0 ((5 : ℤ) - 5 - 3) := by
  norm_num [render, jumpToBottom, computeRange, windowRect, renderTop, initState,
    scrollToBottomCmds, buffer]

/-- C3 (amended): for `jumpToBottom` with `itemCount ≥ 1`, positive stride and
an attached container, the next window computation always yields
`endIndex = itemCount - 1`; its `startIndex` equals
`itemCount - floor(viewportHeight/stride) - buffer` when that value is
positive, and otherwise falls back to the base computed start for the current
scroll position (not to `0`). -/
theorem jumpToBottom_next_window (p : Props) (s : FeedState) (r : UpperRect) (t : Option ℚ)
    (hn : 1 ≤ p.numItems) (hstride : 0 < p.itemHeight + p.marginTop) (hwh : 0 ≤ r.height) :
    (render p (jumpToBottom p s ⟨true, some r, t⟩).1 ⟨true, some r, t⟩).window.endIndex
        = (p.numItems : ℤ) - 1 ∧
    (render p (jumpToBottom p s ⟨true, some r, t⟩).1 ⟨true, some r, t⟩).window.startIndex
        = if 0 < (p.numItems : ℤ) - ⌊r.height / (p.itemHeight + p.marginTop)⌋ - buffer
          then (p.numItems : ℤ) - ⌊r.height / (p.itemHeight + p.marginTop)⌋ - buffer
          else (baseRange p ⟨true, some r, t⟩).startIndex := by
  have htop : 0 ≤ renderTop ⟨true, some r, t⟩ := renderTop_nonneg _
  have hwrect : windowRect ⟨true, some r, t⟩ = (r.height, r.top) := rfl
  have h0 : (0 : ℤ) ≤ ⌊renderTop ⟨true, some r, t⟩ / (p.itemHeight + p.marginTop)⌋ :=
    Int.floor_nonneg.mpr (div_nonneg htop hstride.le)
  have hf1 : (0 : ℤ)
      ≤ ⌊(renderTop ⟨true, some r, t⟩ + r.height) / (p.itemHeight + p.marginTop)⌋ :=
    Int.floor_nonneg.mpr (div_nonneg (by linarith) hstride.le)
  simp only [render, jumpToBottom, baseRange, initState, computeRange, buffer, hwrect]
  split_ifs <;> simp_all <;> omega

/-- Witness for `jumpToBottom_next_window` at `itemCount=50, itemHeight=20,
marginTop=0, viewportHeight=100, scroll offset 400`: the next window is
`[42, 49]`. -/
theorem jumpToBottom_next_window_witness :
    (render ⟨20, 0, 50⟩ (jumpToBottom ⟨20, 0, 50⟩ initState
        ⟨true, some ⟨100, 0⟩, some (-400)⟩).1 ⟨true, some ⟨100, 0⟩, some (-400)⟩).window.endIndex
      = (50 : ℤ) - 1 ∧
    (render ⟨20, 0, 50⟩ (jumpToBottom ⟨20, 0, 50⟩ initState
        ⟨true, some ⟨100, 0⟩, some (-400)⟩).1 ⟨true, some ⟨100, 0⟩, some (-400)⟩).window.startIndex
      = 42 := by
  have h := jumpToBottom_next_window ⟨20, 0, 50⟩ initState ⟨100, 0⟩ (some (-400))
    (by norm_num) (by norm_num) (by norm_num)
  refine ⟨h.1, ?_⟩
  rw [h.2]
  norm_num [buffer]

/-- C7 (counterexample): in Variant B, after `mount → wheel event`, the next
update DOES issue a scroll command: the render pass unconditionally calls
`animateScroll(upperParent, (itemCount + buffer) * itemHeight)` whenever the
wrapper and its parent are attached.  With `itemCount=4, itemHeight=20` the
update's trace contains the bottom-sized command of offset `140`. -/
theorem wheel_update_stays_detached_cex :
    Cmd.animate Target.upperParent 140
      ∈ (updateCycle ⟨20, 0, 4⟩ (wheelScenarioState ⟨20, 0, 4⟩ ⟨true, some ⟨100, 0⟩, some 0⟩)
          ⟨true, some ⟨100, 0⟩, some 0⟩).2.2 := by
  have h : ((4 : ℚ) + 3) * 20 = 140 := by norm_num
  simp [updateCycle, render, componentDidUpdate, wheelScenarioState, handleMouseWheelB,
    componentDidMount, scrollToBottom, scrollToBottomCmds, computeRange, windowRect,
    initState, buffer, h]

/-- C7 (amended): in Variant B, the sequence `mount → wheel event → update`
leaves the anchor Detached (`forceScroll = false`), and `componentDidUpdate`
issues no `scrollToBottom` command; the update's only commands are the
render pass's unconditional scroll of the outer parent by
`(itemCount + buffer) * itemHeight` and its completion callback. -/
theorem wheel_update_stays_detached (p : Props) (r : UpperRect) (t : Option ℚ) :
    ((updateCycle p (wheelScenarioState p ⟨true, some r, t⟩) ⟨true, some r, t⟩).2.1.forceScroll
        = false) ∧
    ((updateCycle p (wheelScenarioState p ⟨true, some r, t⟩) ⟨true, some r, t⟩).2.2
        = [Cmd.animate Target.upperParent (((p.numItems : ℚ) + (buffer : ℚ)) * p.itemHeight),
           Cmd.scrollComplete]) ∧
    (componentDidUpdate p
        (render p (wheelScenarioState p ⟨true, some r, t⟩) ⟨true, some r, t⟩).state
        ⟨true, some r, t⟩).2 = [] := by
  have hws : wheelScenarioState p ⟨true, some r, t⟩ = ⟨false, 0, 0⟩ := rfl
  simp [updateCycle, render, componentDidUpdate, hws, computeRange, windowRect,
    scrollToBottom, scrollToBottomCmds]

end ScrollableFeed
